import Mathlib

/-!
Verification development for the gamuboy-rs emulator core.

Each Rust module slice relevant to the checked claims is shallowly embedded:
machine integers are `Nat` with explicit `% 2^w` where wraparound matters,
fallible operations (Rust slice indexing, `unreachable!`) return `Option`,
and mutable state is passed explicitly.  Fixed-size Rust arrays are modelled
as functions `Nat → Nat` read through a bounds-checked accessor, so an
out-of-bounds index (a Rust panic) surfaces as `none`.
-/

namespace Gamuboy

/-- Bounds-checked array read: Rust slice indexing `arr[i]` on an array of
`size` elements; out of bounds panics, modelled as `none`. -/
def arrGet (f : Nat → Nat) (size i : Nat) : Option Nat :=
  if i < size then some (f i) else none

/-- Bounds-checked array write: `arr[i] = v`; out of bounds panics (`none`). -/
def arrSet (f : Nat → Nat) (size i v : Nat) : Option (Nat → Nat) :=
  if i < size then some (fun j => if j = i then v else f j) else none

/-- Modelled from the spec: the crate's `mode` module is not under `src/`;
per the spec the run-time configuration carries `mode ∈ {DMG, CGB}` (the
monochrome and the color hardware revision). -/
inductive Mode
  | DMG
  | CGB
  deriving DecidableEq

/-- Working/high RAM (`ram.rs`, `struct RAM`): WRAM bank 0 (4 KiB), the
switchable banks 1-7 (7 × 4 KiB stored contiguously), HRAM, and the CGB
bank-select register. -/
structure RAM where
  mode : Mode
  wram_bank0 : Nat → Nat
  wram_bank1_7 : Nat → Nat
  high_ram : Nat → Nat
  wram_bank : Nat

/-- `RAM::new` (ram.rs 28-36). -/
def RAM.new (mode : Mode) : RAM :=
  { mode := mode
    wram_bank0 := fun _ => 0
    wram_bank1_7 := fun _ => 0
    high_ram := fun _ => 0
    wram_bank := 1 }

/-- `RAM::get_switchable_wram_addr` (ram.rs 38-43). -/
def RAM.get_switchable_wram_addr (r : RAM) (address : Nat) : Nat :=
  match r.mode with
  | Mode.DMG => address
  | Mode.CGB => 0x1000 * (r.wram_bank - 1) + address

/-- `RAM::read_byte` (ram.rs 47-72), with the source's match arms translated
in order; the ranges are pairwise disjoint. -/
def RAM.read_byte (r : RAM) (address : Nat) : Option Nat :=
  if r.mode = Mode.CGB ∧ address = 0xFF70 then
    some r.wram_bank
  else if 0xC000 ≤ address ∧ address ≤ 0xCFFF then
    arrGet r.wram_bank0 0x1000 (address - 0xC000)
  else if 0xD000 ≤ address ∧ address ≤ 0xDFFF then
    arrGet r.wram_bank1_7 0x7000 (r.get_switchable_wram_addr address - 0xD000)
  else if 0xFF80 ≤ address ∧ address ≤ 0xFFFE then
    arrGet r.high_ram 0x7F (address - 0xFF80)
  else if 0xE000 ≤ address ∧ address ≤ 0xFDFF then
    arrGet r.wram_bank0 0x1000 ((address - 0x2000) - 0xC000)
  else
    some 0xFF

/-- `RAM::write_byte` (ram.rs 73-100); in CGB mode a write to 0xFF70 sets
`wram_bank = max(value & 7, 1)`. -/
def RAM.write_byte (r : RAM) (address value : Nat) : Option RAM :=
  if r.mode = Mode.CGB ∧ address = 0xFF70 then
    some { r with wram_bank := Nat.max (value &&& 7) 1 }
  else if 0xC000 ≤ address ∧ address ≤ 0xCFFF then
    (arrSet r.wram_bank0 0x1000 (address - 0xC000) value).map
      (fun m => { r with wram_bank0 := m })
  else if 0xD000 ≤ address ∧ address ≤ 0xDFFF then
    (arrSet r.wram_bank1_7 0x7000 (r.get_switchable_wram_addr address - 0xD000) value).map
      (fun m => { r with wram_bank1_7 := m })
  else if 0xFF80 ≤ address ∧ address ≤ 0xFFFE then
    (arrSet r.high_ram 0x7F (address - 0xFF80) value).map
      (fun m => { r with high_ram := m })
  else if 0xE000 ≤ address ∧ address ≤ 0xFDFF then
    (arrSet r.wram_bank0 0x1000 ((address - 0x2000) - 0xC000) value).map
      (fun m => { r with wram_bank0 := m })
  else
    some r

/-- Address-decode target of the system bus: one constructor per match arm of
`SystemBus::read_byte` / `write_byte` (bus.rs 101-142), which use identical
arms. -/
inductive BusTarget
  | cartridge
  | apu
  | ppu
  | intReg
  | joypad
  | timer
  | serial
  | ram
  | speed
  | dummy
  deriving DecidableEq

/-- The address decode shared by `SystemBus::read_byte` and `write_byte`
(bus.rs 101-142), arms in source order.  Any address not matched by an
explicit arm falls through to the `dummy_mem` scratch vector. -/
def busDecode (address : Nat) : BusTarget :=
  if address ≤ 0x7FFF ∨ (0xA000 ≤ address ∧ address ≤ 0xBFFF) ∨ address = 0xFF50 then
    BusTarget.cartridge
  else if 0xFF10 ≤ address ∧ address ≤ 0xFF3F then
    BusTarget.apu
  else if (0x8000 ≤ address ∧ address ≤ 0x9FFF) ∨ (0xFE00 ≤ address ∧ address ≤ 0xFE9F)
      ∨ (0xFF40 ≤ address ∧ address ≤ 0xFF4B) then
    BusTarget.ppu
  else if address = 0xFF0F ∨ address = 0xFFFF then
    BusTarget.intReg
  else if address = 0xFF00 then
    BusTarget.joypad
  else if 0xFF04 ≤ address ∧ address ≤ 0xFF07 then
    BusTarget.timer
  else if 0xFF01 ≤ address ∧ address ≤ 0xFF02 then
    BusTarget.serial
  else if (0xC000 ≤ address ∧ address ≤ 0xFDFF) ∨ (0xFF80 ≤ address ∧ address ≤ 0xFFFE) then
    BusTarget.ram
  else if address = 0xFF4D then
    BusTarget.speed
  else
    BusTarget.dummy

/-- `SystemBus` (bus.rs 21-43) restricted to what claims C1-C3 observe: the
RAM and the `dummy_mem` scratch vector are modelled exactly; the cartridge,
APU, PPU, interrupt registers, joypad, timer and serial port are abstracted,
each carried as its current memory-mapped read view (`Nat → Nat`) together
with an arbitrary write transformer that stands for its `write_byte`.  The
claims C1-C3 only exercise the RAM and dummy arms, so the transformers are
never interpreted. -/
structure SystemBus where
  dummy_mem : Nat → Nat
  cartridge : Nat → Nat
  cartridgeW : (Nat → Nat) → Nat → Nat → Nat → Nat
  apu : Nat → Nat
  apuW : (Nat → Nat) → Nat → Nat → Nat → Nat
  ppu : Nat → Nat
  ppuW : (Nat → Nat) → Nat → Nat → Nat → Nat
  int_reg : Nat → Nat
  int_regW : (Nat → Nat) → Nat → Nat → Nat → Nat
  joypad : Nat → Nat
  joypadW : (Nat → Nat) → Nat → Nat → Nat → Nat
  timer : Nat → Nat
  timerW : (Nat → Nat) → Nat → Nat → Nat → Nat
  serial : Nat → Nat
  serialW : (Nat → Nat) → Nat → Nat → Nat → Nat
  ram : RAM
  double_speed_mode : Bool
  switch_armed : Bool

/-- `SystemBus::read_byte` (bus.rs 101-121).  `dummy_mem` is
`vec![0xFF; 0xA0000]`, so its bound is 0xA0000. -/
def SystemBus.read_byte (b : SystemBus) (address : Nat) : Option Nat :=
  match busDecode address with
  | BusTarget.cartridge => some (b.cartridge address)
  | BusTarget.apu => some (b.apu address)
  | BusTarget.ppu => some (b.ppu address)
  | BusTarget.intReg => some (b.int_reg address)
  | BusTarget.joypad => some (b.joypad address)
  | BusTarget.timer => some (b.timer address)
  | BusTarget.serial => some (b.serial address)
  | BusTarget.ram => b.ram.read_byte address
  | BusTarget.speed =>
      some (((cond b.double_speed_mode 1 0) <<< 7) ||| cond b.switch_armed 1 0)
  | BusTarget.dummy => arrGet b.dummy_mem 0xA0000 address

/-- `SystemBus::write_byte` (bus.rs 123-142). -/
def SystemBus.write_byte (b : SystemBus) (address value : Nat) : Option SystemBus :=
  match busDecode address with
  | BusTarget.cartridge => some { b with cartridge := b.cartridgeW b.cartridge address value }
  | BusTarget.apu => some { b with apu := b.apuW b.apu address value }
  | BusTarget.ppu => some { b with ppu := b.ppuW b.ppu address value }
  | BusTarget.intReg => some { b with int_reg := b.int_regW b.int_reg address value }
  | BusTarget.joypad => some { b with joypad := b.joypadW b.joypad address value }
  | BusTarget.timer => some { b with timer := b.timerW b.timer address value }
  | BusTarget.serial => some { b with serial := b.serialW b.serial address value }
  | BusTarget.ram => (b.ram.write_byte address value).map (fun r => { b with ram := r })
  | BusTarget.speed => some { b with switch_armed := value &&& 1 = 1 }
  | BusTarget.dummy =>
      (arrSet b.dummy_mem 0xA0000 address value).map (fun m => { b with dummy_mem := m })

/-- A freshly constructed system bus in the given mode: `dummy_mem` filled
with 0xFF (bus.rs 66), `RAM::new`, and inert stand-ins for the abstracted
peripherals. -/
def SystemBus.fresh (mode : Mode) : SystemBus :=
  { dummy_mem := fun _ => 0xFF
    cartridge := fun _ => 0
    cartridgeW := fun f _ _ => f
    apu := fun _ => 0
    apuW := fun f _ _ => f
    ppu := fun _ => 0
    ppuW := fun f _ _ => f
    int_reg := fun _ => 0
    int_regW := fun f _ _ => f
    joypad := fun _ => 0
    joypadW := fun f _ _ => f
    timer := fun _ => 0
    timerW := fun f _ _ => f
    serial := fun _ => 0
    serialW := fun f _ _ => f
    ram := RAM.new mode
    double_speed_mode := false
    switch_armed := false }


/-- The interrupt request/enable register pairs (`interrupts.rs`,
`struct InterruptRegisters`): two `[bool; 5]` arrays, modelled as functions
(indices 0-4 are meaningful). -/
structure InterruptRegisters where
  enables : Nat → Bool
  flags : Nat → Bool

/-- `ISR_ADDRESSES` (interrupts.rs 9): the five interrupt vectors, indexed by
bit number. -/
def isrAddresses : List Nat := [0x40, 0x48, 0x50, 0x58, 0x60]

/-- `InterruptRegisters::new` (interrupts.rs 46-51). -/
def InterruptRegisters.new : InterruptRegisters :=
  { enables := fun _ => false, flags := fun _ => false }

/-- `InterruptRegisters::request_stat_lcd` (interrupts.rs 57-59): set IF
bit 1. -/
def InterruptRegisters.request_stat_lcd (r : InterruptRegisters) : InterruptRegisters :=
  { r with flags := fun j => if j = 1 then true else r.flags j }

/-- `InterruptRegisters::request_timer` (interrupts.rs 61-63): set IF
bit 2. -/
def InterruptRegisters.request_timer (r : InterruptRegisters) : InterruptRegisters :=
  { r with flags := fun j => if j = 2 then true else r.flags j }

/-- The loop body of `InterruptRegisters::check` (interrupts.rs 74-82),
starting from bit index `bit`: the first bit with both enable and flag set is
selected, its flag is assigned `!reset_flag`, and its vector is returned. -/
def InterruptRegisters.checkAux (r : InterruptRegisters) (resetFlag : Bool) (bit : Nat) :
    Option Nat × InterruptRegisters :=
  if h : bit < 5 then
    if r.enables bit && r.flags bit then
      (some (isrAddresses.getD bit 0),
        { r with flags := fun j => if j = bit then !resetFlag else r.flags j })
    else
      r.checkAux resetFlag (bit + 1)
  else
    (none, r)
termination_by 5 - bit

/-- `InterruptRegisters::check` (interrupts.rs 74-82). -/
def InterruptRegisters.check (r : InterruptRegisters) (resetFlag : Bool) :
    Option Nat × InterruptRegisters :=
  r.checkAux resetFlag 0

/-- `TimerControl` (timer.rs 7-10): the TAC register. -/
structure TimerControl where
  inc_freq : Nat
  enabled : Bool

/-- `TimerControl::from` (timer.rs 13-18). -/
def TimerControl.fromByte (v : Nat) : TimerControl :=
  { inc_freq := v &&& 3, enabled := (v >>> 2) &&& 1 != 0 }

/-- `TimerControl::falling_edge_bit` (timer.rs 20-28).  `inc_freq` is always
masked by `& 3`, so the catch-all arm (`unreachable!`) never fires; it is
given an arbitrary value here. -/
def TimerControl.falling_edge_bit (t : TimerControl) : Nat :=
  match t.inc_freq with
  | 0 => 9
  | 1 => 3
  | 2 => 5
  | 3 => 7
  | _ => 0

/-- `TimerControl::read` (timer.rs 30-32). -/
def TimerControl.read (t : TimerControl) : Nat :=
  t.inc_freq ||| ((cond t.enabled 1 0) <<< 2)

/-- `SystemCounter` (timer.rs 40-45): the free-running 16-bit DIV counter
with its previous value and the edge flags computed by the last `inc`. -/
structure SystemCounter where
  counter : Nat
  prev : Nat
  ticked : Bool
  div_apu_event : Bool

/-- `SystemCounter::new` (timer.rs 48-55). -/
def SystemCounter.new : SystemCounter :=
  { counter := 0, prev := 0, ticked := false, div_apu_event := false }

/-- `SystemCounter::timer_ticked` (timer.rs 57-64): falling edge of the
selected counter bit between `prev` and `counter`. -/
def SystemCounter.timer_ticked (s : SystemCounter) (fallingEdgeBit : Nat) : Bool :=
  ((s.prev >>> fallingEdgeBit) &&& 1 == 1) && ((s.counter >>> fallingEdgeBit) &&& 1 == 0)

/-- `SystemCounter::div` (timer.rs 90-92): DIV is the high byte of the
counter. -/
def SystemCounter.div (s : SystemCounter) : Nat :=
  (s.counter >>> 8) &&& 0xFF

/-- `SystemCounter::div_apu_ticked` (timer.rs 66-72). -/
def SystemCounter.div_apu_ticked (s : SystemCounter) (doubleSpeedMode : Bool) : Bool :=
  let d := s.div
  let bit := if doubleSpeedMode then 32 else 16
  let prev := (s.prev >>> 8) &&& 0xFF
  (prev &&& bit == bit) && (d &&& bit == 0)

/-- `SystemCounter::inc` (timer.rs 74-84): wrapping 16-bit add of `cycles`,
then the two edge detections against the old `prev`, then `prev` catches
up. -/
def SystemCounter.inc (s : SystemCounter) (cycles fallingEdgeBit : Nat)
    (doubleSpeedMode : Bool) : SystemCounter :=
  let s := { s with ticked := false }
  let s := { s with counter := (s.counter + cycles) % 65536 }
  let s := { s with ticked := s.timer_ticked fallingEdgeBit }
  let s := { s with div_apu_event := s.div_apu_ticked doubleSpeedMode }
  { s with prev := s.counter }

/-- `Timer` (timer.rs 100-106). -/
structure Timer where
  system_counter : SystemCounter
  delayed_timer : Bool
  tima : Nat
  tma : Nat
  tac : TimerControl

/-- `Timer::new` (timer.rs 109-117): note `delayed_timer` starts `true`. -/
def Timer.new : Timer :=
  { system_counter := SystemCounter.new
    delayed_timer := true
    tima := 0
    tma := 0
    tac := TimerControl.fromByte 0 }

/-- `Timer::step` (timer.rs 123-144): advance the system counter; if the
timer is enabled, first perform a pending delayed reload (TIMA ← TMA and
raise the Timer interrupt), then on a falling-edge tick increment TIMA with
8-bit wraparound, arming the delayed reload on overflow. -/
def Timer.step (t : Timer) (intReg : InterruptRegisters) (cycles : Nat)
    (doubleSpeedMode : Bool) : Timer × InterruptRegisters :=
  let t := { t with
    system_counter := t.system_counter.inc cycles t.tac.falling_edge_bit doubleSpeedMode }
  if !t.tac.enabled then
    (t, intReg)
  else
    let (t, intReg) :=
      if t.delayed_timer then
        ({ t with tima := t.tma, delayed_timer := false }, intReg.request_timer)
      else
        (t, intReg)
    if t.system_counter.ticked then
      let newTima := (t.tima + 1) % 256
      let overflowed := decide (256 ≤ t.tima + 1)
      ({ t with tima := newTima,
                delayed_timer := if overflowed then true else t.delayed_timer }, intReg)
    else
      (t, intReg)

/-- `Timer::write_byte` (timer.rs 157-165); addresses outside
0xFF04-0xFF07 hit `unreachable!`, modelled as `none`. -/
def Timer.write_byte (t : Timer) (address value : Nat) : Option Timer :=
  if address = 0xFF04 then
    some { t with system_counter := { t.system_counter with counter := 0 } }
  else if address = 0xFF05 then
    some { t with tima := value }
  else if address = 0xFF06 then
    some { t with tma := value }
  else if address = 0xFF07 then
    some { t with tac := TimerControl.fromByte value }
  else
    none

/-- `FlagsRegister` (registers.rs 90-96): the four flag bits stored as
booleans — the low nibble of F has no representation at all. -/
structure FlagsRegister where
  zero : Bool
  subtract : Bool
  half_carry : Bool
  carry : Bool

/-- `impl From<FlagsRegister> for u8` (registers.rs 123-130): pack the flags
into bits 7-4. -/
def FlagsRegister.toByte (f : FlagsRegister) : Nat :=
  ((cond f.zero 1 0) <<< 7) ||| ((cond f.subtract 1 0) <<< 6)
    ||| ((cond f.half_carry 1 0) <<< 5) ||| ((cond f.carry 1 0) <<< 4)

/-- `impl From<u8> for FlagsRegister` (registers.rs 132-141): only bits 7-4
of the byte are read. -/
def FlagsRegister.ofByte (byte : Nat) : FlagsRegister :=
  { zero := (byte >>> 7) &&& 1 != 0
    subtract := (byte >>> 6) &&& 1 != 0
    half_carry := (byte >>> 5) &&& 1 != 0
    carry := (byte >>> 4) &&& 1 != 0 }

/-- `Registers` (registers.rs 1-11). -/
structure Registers where
  a : Nat
  b : Nat
  c : Nat
  d : Nat
  e : Nat
  f : FlagsRegister
  h : Nat
  l : Nat

/-- `as_16bits` (registers.rs 78-80). -/
def as_16bits (left right : Nat) : Nat :=
  (left <<< 8) ||| right

/-- `get_16bits_left` (registers.rs 82-84): `(value >> 8) as u8`. -/
def get_16bits_left (value : Nat) : Nat :=
  (value >>> 8) &&& 0xFF

/-- `get_16bits_right` (registers.rs 86-88): `value as u8`. -/
def get_16bits_right (value : Nat) : Nat :=
  value &&& 0xFF

/-- `Registers::get_af` (registers.rs 41-43). -/
def Registers.get_af (r : Registers) : Nat :=
  as_16bits r.a r.f.toByte

/-- `Registers::set_af` (registers.rs 45-48). -/
def Registers.set_af (r : Registers) (value : Nat) : Registers :=
  { r with a := get_16bits_left value, f := FlagsRegister.ofByte (get_16bits_right value) }

/-- The PPU mode (`ppu.rs` 307-313, `enum Mode`); the source compares modes
via their `u8` discriminants, which coincides with constructor equality. -/
inductive PPUMode
  | HBlank
  | VBlank
  | OAM
  | VRAM
  deriving DecidableEq

/-- The slice of `PPU` state (ppu.rs) read and written by
`update_stat_line` / `handle_stat_int` (ppu.rs 791-805): the current mode,
LY/LYC, the four STAT interrupt-source selectors (ppu.rs 315-321) and the
internal STAT interrupt line.  The PPU mode handlers never touch
`stat_int_line`; only `update_stat_line` assigns it. -/
structure PPUStatSlice where
  mode : PPUMode
  ly : Nat
  lyc : Nat
  hblank_int_select : Bool
  vblank_int_select : Bool
  oam_int_select : Bool
  lyc_int_select : Bool
  stat_int_line : Bool

/-- The value assigned to `stat_int_line` by `PPU::update_stat_line`
(ppu.rs 791-797), disjuncts in source order. -/
def statLineValue (p : PPUStatSlice) : Bool :=
  (p.mode == PPUMode.HBlank && p.hblank_int_select)
    || (p.mode == PPUMode.OAM && p.oam_int_select)
    || (p.mode == PPUMode.VBlank && p.vblank_int_select)
    || (p.ly == p.lyc && p.lyc_int_select)

/-- `PPU::update_stat_line` (ppu.rs 791-797). -/
def PPUStatSlice.update_stat_line (p : PPUStatSlice) : PPUStatSlice :=
  { p with stat_int_line := statLineValue p }

/-- `PPU::handle_stat_int` (ppu.rs 799-805): recompute the line and request
a STAT interrupt only on its rising edge.  This is the sole call site of
`request_stat_lcd` in the PPU. -/
def PPUStatSlice.handle_stat_int (p : PPUStatSlice) (intReg : InterruptRegisters) :
    PPUStatSlice × InterruptRegisters :=
  let prev := p.stat_int_line
  let p := p.update_stat_line
  if !prev && p.stat_int_line then
    (p, intReg.request_stat_lcd)
  else
    (p, intReg)

/-- `SweepDirection` (apu.rs 30-33). -/
inductive SweepDirection
  | Addition
  | Substraction
  deriving DecidableEq

/-- `EnvelopeDirection` (apu.rs 44-47). -/
inductive EnvelopeDirection
  | Decrease
  | Increase
  deriving DecidableEq

/-- `Envelope` (apu.rs 68-77). -/
structure Envelope where
  initial_volume : Nat
  dir : EnvelopeDirection
  sweep_pace : Nat
  volume : Nat
  dir_shadow : EnvelopeDirection
  pace_shadow : Nat
  timer : Nat

/-- `Envelope::new` (apu.rs 80-91). -/
def Envelope.new : Envelope :=
  { initial_volume := 0
    dir := EnvelopeDirection.Decrease
    sweep_pace := 0
    volume := 0
    dir_shadow := EnvelopeDirection.Decrease
    pace_shadow := 0
    timer := 0 }

/-- `Period` (apu.rs 133-137). -/
structure Period where
  high : Nat
  low : Nat
  timer : Nat

/-- `Period::new` (apu.rs 140-146). -/
def Period.new : Period :=
  { high := 0, low := 0, timer := 0 }

/-- `DutyCycle` (apu.rs 166-171). -/
inductive DutyCycle
  | Eighth
  | Quarter
  | Half
  | ThreeQuarter
  deriving DecidableEq

/-- `LengthTimer` (apu.rs 200-206). -/
structure LengthTimer where
  len : Nat
  length_enable : Bool
  init_length_timer : Nat
  timer : Nat

/-- `LengthTimer::new` (apu.rs 209-216). -/
def LengthTimer.new (len : Nat) : LengthTimer :=
  { len := len, length_enable := false, init_length_timer := 0, timer := 0 }

/-- `Sweep` (apu.rs 264-272). -/
structure Sweep where
  pace : Nat
  direction : SweepDirection
  has_substracted : Bool
  step : Nat
  timer : Nat
  enabled_flag : Bool
  period_shadow_register : Nat

/-- `Sweep::new` (apu.rs 275-285). -/
def Sweep.new : Sweep :=
  { pace := 0
    direction := SweepDirection.Addition
    has_substracted := false
    step := 0
    timer := 0
    enabled_flag := false
    period_shadow_register := 0 }

/-- `Panning` (apu.rs 325-328). -/
structure Panning where
  left : Bool
  right : Bool

/-- `Panning::new` (apu.rs 331-336). -/
def Panning.new : Panning :=
  { left := false, right := false }

/-- `Dac` (apu.rs 343): a fieldless marker struct. -/
structure Dac where

/-- `Dac::new` (apu.rs 346-348). -/
def Dac.new : Dac := {}

/-- `SquareChannel` (apu.rs 356-372). -/
structure SquareChannel where
  is_on : Bool
  dac_on : Bool
  dac : Dac
  panning : Panning
  sweep : Option Sweep
  length_timer : LengthTimer
  wave_duty : DutyCycle
  duty_step_counter : Nat
  envelope : Envelope
  period : Period

/-- `SquareChannel::new` (apu.rs 375-394). -/
def SquareChannel.new (with_sweep : Bool) : SquareChannel :=
  { is_on := false
    dac_on := false
    dac := Dac.new
    panning := Panning.new
    sweep := if with_sweep then some Sweep.new else none
    length_timer := LengthTimer.new 64
    wave_duty := DutyCycle.Eighth
    duty_step_counter := 0
    envelope := Envelope.new
    period := Period.new }

/-- `OutputLevel` (apu.rs 520-525). -/
inductive OutputLevel
  | Mute
  | Full
  | Half
  | Quarter
  deriving DecidableEq

/-- `WaveRam` (apu.rs 551-556): 16 bytes of wave RAM plus the sampling
cursor state. -/
structure WaveRam where
  ram : Nat → Nat
  sample_index : Nat
  sample_buffer : Nat

/-- `WaveRam::new` (apu.rs 559-569): wave RAM starts with a fixed pattern. -/
def WaveRam.new : WaveRam :=
  { ram := fun i =>
      [0x84, 0x40, 0x43, 0xAA, 0x2D, 0x78, 0x92, 0x3C,
       0x60, 0x59, 0x59, 0xB0, 0x34, 0xB5, 0xCA, 0x6E].getD i 0
    sample_index := 0
    sample_buffer := 0 }

/-- `WaveChannel` (apu.rs 589-605). -/
structure WaveChannel where
  is_on : Bool
  dac_on : Bool
  dac : Dac
  panning : Panning
  length_timer : LengthTimer
  initial_output_level : OutputLevel
  output_level : OutputLevel
  period : Period
  wave_ram : WaveRam
  started_sampling : Bool

/-- `WaveChannel::new` (apu.rs 608-627). -/
def WaveChannel.new : WaveChannel :=
  { is_on := false
    dac_on := false
    dac := Dac.new
    panning := Panning.new
    length_timer := LengthTimer.new 256
    initial_output_level := OutputLevel.Mute
    output_level := OutputLevel.Mute
    period := Period.new
    wave_ram := WaveRam.new
    started_sampling := false }

/-- `NoiseChannel` (apu.rs 744-761). -/
structure NoiseChannel where
  is_on : Bool
  dac_on : Bool
  dac : Dac
  panning : Panning
  length_timer : LengthTimer
  envelope : Envelope
  lfsr : Nat
  clock_shift : Nat
  short_mode : Bool
  clock_divider : Nat
  period_div : Nat

/-- `NoiseChannel::new` (apu.rs 764-781). -/
def NoiseChannel.new : NoiseChannel :=
  { is_on := false
    dac_on := false
    dac := Dac.new
    panning := Panning.new
    length_timer := LengthTimer.new 64
    envelope := Envelope.new
    lfsr := 0
    clock_shift := 0
    short_mode := false
    clock_divider := 0
    period_div := 0 }

/-- `APU` (apu.rs 885-906), generic over the stereo player backend `S` as in
the source.  The `f32` sample buffer carries Lean `Float`s; the claims only
observe that power-off zeroes it. -/
structure APU (S : Type) where
  is_on : Bool
  vin_left : Bool
  vin_right : Bool
  left_volume : Nat
  right_volume : Nat
  prev_div_apu : Nat
  current_step : Nat
  samples_cycle_acc : Nat
  ch1 : SquareChannel
  ch2 : SquareChannel
  ch3 : WaveChannel
  ch4 : NoiseChannel
  buffer : Nat → Float
  buffer_index : Nat
  stereo : S

/-- `APU::new` (apu.rs 909-931). -/
def APU.new {S : Type} (stereo : S) : APU S :=
  { is_on := false
    vin_left := false
    vin_right := false
    left_volume := 0
    right_volume := 0
    prev_div_apu := 0
    current_step := 0
    samples_cycle_acc := 0
    ch1 := SquareChannel.new true
    ch2 := SquareChannel.new false
    ch3 := WaveChannel.new
    ch4 := NoiseChannel.new
    buffer := fun _ => 0
    buffer_index := 0
    stereo := stereo }

/-- `APU::power_on` (apu.rs 933-940). -/
def APU.power_on {S : Type} (a : APU S) : APU S :=
  let a := if !a.is_on then { a with current_step := 7 } else a
  { a with is_on := true }

/-- `APU::power_off` (apu.rs 942-972): save the wave RAM bytes and the four
length-timer counters, reinitialise every channel, restore the saved pieces,
then zero the master-control, mixer, frame-sequencer and sample-buffer
state. -/
def APU.power_off {S : Type} (a : APU S) : APU S :=
  let wave_ram_copy := a.ch3.wave_ram.ram
  let ch1_len_timer := a.ch1.length_timer.timer
  let ch2_len_timer := a.ch2.length_timer.timer
  let ch3_len_timer := a.ch3.length_timer.timer
  let ch4_len_timer := a.ch4.length_timer.timer
  let a := { a with
    ch1 := SquareChannel.new true
    ch2 := SquareChannel.new false
    ch3 := WaveChannel.new
    ch4 := NoiseChannel.new }
  let a := { a with
    ch3 := { a.ch3 with wave_ram := { a.ch3.wave_ram with ram := wave_ram_copy } } }
  let a := { a with
    ch1 := { a.ch1 with length_timer := { a.ch1.length_timer with timer := ch1_len_timer } }
    ch2 := { a.ch2 with length_timer := { a.ch2.length_timer with timer := ch2_len_timer } }
    ch3 := { a.ch3 with length_timer := { a.ch3.length_timer with timer := ch3_len_timer } }
    ch4 := { a.ch4 with length_timer := { a.ch4.length_timer with timer := ch4_len_timer } } }
  { a with
    is_on := false
    vin_left := false
    vin_right := false
    left_volume := 0
    right_volume := 0
    prev_div_apu := 0
    current_step := 0
    samples_cycle_acc := 0
    buffer := fun _ => 0
    buffer_index := 0 }

/-- `APU::write_master_control` (apu.rs 1023-1030): NR52 writes only look at
bit 7. -/
def APU.write_master_control {S : Type} (a : APU S) (value : Nat) : APU S :=
  let is_on := value &&& 128 == 128
  if !is_on then a.power_off else a.power_on

/-- The `Bus` trait (bus.rs 10-19): the CPU is generic over its bus, so the
bus is modelled as a record of operations over an arbitrary bus-state type
`β`, exactly mirroring the four trait methods. -/
structure BusOps (β : Type) where
  read_byte : β → Nat → Nat
  write_byte : β → Nat → Nat → β
  check_int : β → Bool → Option Nat × β
  step_peripherals : β → Nat → β

/-- `CPU` (cpu.rs 5-17), minus its owned bus generic parameter, which is the
`bus` field of type `β`. -/
structure CPUState (β : Type) where
  is_halted : Bool
  is_stopped : Bool
  ime : Bool
  ime_delayed : Bool
  registers : Registers
  pc : Nat
  sp : Nat
  bus : β
  cycles_synced : Nat

/-- `CPU::read_byte` (cpu.rs 43-48): a bus read also steps the peripherals
four cycles and records them in `cycles_synced` (a `u8`, hence `% 256`). -/
def cpuReadByte {β : Type} (ops : BusOps β) (cpu : CPUState β) (address : Nat) :
    Nat × CPUState β :=
  let v := ops.read_byte cpu.bus address
  (v, { cpu with
          bus := ops.step_peripherals cpu.bus 4
          cycles_synced := (cpu.cycles_synced + 4) % 256 })

/-- `CPU::write_byte` (cpu.rs 56-60). -/
def cpuWriteByte {β : Type} (ops : BusOps β) (cpu : CPUState β) (address value : Nat) :
    CPUState β :=
  let cpu := { cpu with bus := ops.write_byte cpu.bus address value }
  { cpu with
      bus := ops.step_peripherals cpu.bus 4
      cycles_synced := (cpu.cycles_synced + 4) % 256 }

/-- `CPU::write_two_bytes` (cpu.rs 62-65): low byte first, then high byte at
the wrapping successor address. -/
def cpuWriteTwoBytes {β : Type} (ops : BusOps β) (cpu : CPUState β) (address value : Nat) :
    CPUState β :=
  let cpu := cpuWriteByte ops cpu address (value &&& 0xFF)
  cpuWriteByte ops cpu ((address + 1) % 65536) ((value >>> 8) &&& 0xFF)

/-- `CPU::push` (cpu.rs 2298-2301): `sp.wrapping_sub(2)` is `+ 65534`
mod 2^16 for a 16-bit `sp`. -/
def cpuPush {β : Type} (ops : BusOps β) (cpu : CPUState β) (value : Nat) : CPUState β :=
  let cpu := { cpu with sp := (cpu.sp + 65534) % 65536 }
  cpuWriteTwoBytes ops cpu cpu.sp value

/-- `CPU::check_interrupts` (cpu.rs 2217-2240): with IME off, a pending
enabled interrupt only breaks HALT (4 cycles, probed with
`check_interrupts(false)` which leaves the flag set); with IME on, a pending
interrupt is serviced (flag consumed via `check_interrupts(true)`, IME
cleared, PC pushed, PC set to the vector, 20 cycles). -/
def cpuCheckInterrupts {β : Type} (ops : BusOps β) (cpu : CPUState β) :
    Nat × CPUState β :=
  if !cpu.ime then
    if cpu.is_halted then
      match ops.check_int cpu.bus false with
      | (some _, bus) => (4, { cpu with bus := bus, is_halted := false })
      | (none, bus) => (0, { cpu with bus := bus })
    else
      (0, cpu)
  else
    match ops.check_int cpu.bus true with
    | (some isr_addr, bus) =>
        let cpu := { cpu with bus := bus, is_halted := false, ime := false }
        let cpu := cpuPush ops cpu cpu.pc
        (20, { cpu with pc := isr_addr })
    | (none, bus) => (0, { cpu with bus := bus })

/-- The set of opcodes handled by an explicit arm of `CPU::execute`
(cpu.rs 71-1100), listed in ascending order: every opcode except the prefix
byte 0xCB (dispatched separately in `CPU::step`) and the eleven illegal
opcodes 0xD3, 0xDB, 0xDD, 0xE3, 0xE4, 0xEB, 0xEC, 0xED, 0xF4, 0xFC, 0xFD,
which fall through to the final `_ => None` arm (cpu.rs 1098). -/
def executeMatchedOpcodes : List Nat :=
  [0x00, 0x01, 0x02, 0x03, 0x04, 0x05, 0x06, 0x07, 0x08, 0x09, 0x0A, 0x0B,
   0x0C, 0x0D, 0x0E, 0x0F, 0x10, 0x11, 0x12, 0x13, 0x14, 0x15, 0x16, 0x17,
   0x18, 0x19, 0x1A, 0x1B, 0x1C, 0x1D, 0x1E, 0x1F, 0x20, 0x21, 0x22, 0x23,
   0x24, 0x25, 0x26, 0x27, 0x28, 0x29, 0x2A, 0x2B, 0x2C, 0x2D, 0x2E, 0x2F,
   0x30, 0x31, 0x32, 0x33, 0x34, 0x35, 0x36, 0x37, 0x38, 0x39, 0x3A, 0x3B,
   0x3C, 0x3D, 0x3E, 0x3F, 0x40, 0x41, 0x42, 0x43, 0x44, 0x45, 0x46, 0x47,
   0x48, 0x49, 0x4A, 0x4B, 0x4C, 0x4D, 0x4E, 0x4F, 0x50, 0x51, 0x52, 0x53,
   0x54, 0x55, 0x56, 0x57, 0x58, 0x59, 0x5A, 0x5B, 0x5C, 0x5D, 0x5E, 0x5F,
   0x60, 0x61, 0x62, 0x63, 0x64, 0x65, 0x66, 0x67, 0x68, 0x69, 0x6A, 0x6B,
   0x6C, 0x6D, 0x6E, 0x6F, 0x70, 0x71, 0x72, 0x73, 0x74, 0x75, 0x76, 0x77,
   0x78, 0x79, 0x7A, 0x7B, 0x7C, 0x7D, 0x7E, 0x7F, 0x80, 0x81, 0x82, 0x83,
   0x84, 0x85, 0x86, 0x87, 0x88, 0x89, 0x8A, 0x8B, 0x8C, 0x8D, 0x8E, 0x8F,
   0x90, 0x91, 0x92, 0x93, 0x94, 0x95, 0x96, 0x97, 0x98, 0x99, 0x9A, 0x9B,
   0x9C, 0x9D, 0x9E, 0x9F, 0xA0, 0xA1, 0xA2, 0xA3, 0xA4, 0xA5, 0xA6, 0xA7,
   0xA8, 0xA9, 0xAA, 0xAB, 0xAC, 0xAD, 0xAE, 0xAF, 0xB0, 0xB1, 0xB2, 0xB3,
   0xB4, 0xB5, 0xB6, 0xB7, 0xB8, 0xB9, 0xBA, 0xBB, 0xBC, 0xBD, 0xBE, 0xBF,
   0xC0, 0xC1, 0xC2, 0xC3, 0xC4, 0xC5, 0xC6, 0xC7, 0xC8, 0xC9, 0xCA, 0xCC,
   0xCD, 0xCE, 0xCF, 0xD0, 0xD1, 0xD2, 0xD4, 0xD5, 0xD6, 0xD7, 0xD8, 0xD9,
   0xDA, 0xDC, 0xDE, 0xDF, 0xE0, 0xE1, 0xE2, 0xE5, 0xE6, 0xE7, 0xE8, 0xE9,
   0xEA, 0xEE, 0xEF, 0xF0, 0xF1, 0xF2, 0xF3, 0xF5, 0xF6, 0xF7, 0xF8, 0xF9,
   0xFA, 0xFB, 0xFE, 0xFF]

/-- The eleven illegal opcodes listed in the spec. -/
def illegalOpcodes : List Nat :=
  [0xD3, 0xDB, 0xDD, 0xE3, 0xE4, 0xEB, 0xEC, 0xED, 0xF4, 0xFC, 0xFD]

/-- `CPU::execute` (cpu.rs 71-1100), with the semantics of the explicitly
matched arms abstracted as a parameter `exec` (the claims only concern the
fall-through arm): a matched opcode runs its arm; any other opcode hits
`_ => None`, touching no state. -/
def cpuExecute {β : Type}
    (exec : CPUState β → Nat → CPUState β × Option (Nat × Nat))
    (cpu : CPUState β) (instruction_byte : Nat) : CPUState β × Option (Nat × Nat) :=
  if instruction_byte ∈ executeMatchedOpcodes then
    exec cpu instruction_byte
  else
    (cpu, none)

/-- `CPU::step` (cpu.rs 2242-2277): apply the delayed IME, handle HALT,
otherwise fetch and execute one opcode (an unmatched opcode yields
`(pc.wrapping_add(1), 4)`), then poll interrupts and step the peripherals by
the cycles not already synced during memory accesses.  `exec` and
`execPrefixed` abstract the matched arms of `execute` and all of
`execute_prefixed`. -/
def cpuStep {β : Type} (ops : BusOps β)
    (exec : CPUState β → Nat → CPUState β × Option (Nat × Nat))
    (execPrefixed : CPUState β → Nat → CPUState β × Option (Nat × Nat))
    (cpu : CPUState β) : Nat × CPUState β :=
  let cpu :=
    if cpu.ime_delayed then { cpu with ime := true, ime_delayed := false } else cpu
  if cpu.is_halted then
    let (ci, cpu) := cpuCheckInterrupts ops cpu
    let cycles := 4 + ci
    (cycles, { cpu with bus := ops.step_peripherals cpu.bus cycles })
  else
    let (opcode, cpu) := cpuReadByte ops cpu cpu.pc
    let (cpu, next) :=
      if opcode = 0xCB then
        let (b2, cpu) := cpuReadByte ops cpu (cpu.pc + 1)
        match execPrefixed cpu b2 with
        | (cpu, some r) => (cpu, r)
        | (cpu, none) => (cpu, ((cpu.pc + 1) % 65536, 4))
      else
        match cpuExecute exec cpu opcode with
        | (cpu, some r) => (cpu, r)
        | (cpu, none) => (cpu, ((cpu.pc + 1) % 65536, 4))
    let cpu := { cpu with pc := next.1 }
    let (ci, cpu) := cpuCheckInterrupts ops cpu
    let cycles := next.2 + ci
    let cpu :=
      if cpu.cycles_synced < cycles then
        { cpu with bus := ops.step_peripherals cpu.bus (cycles - cpu.cycles_synced) }
      else
        cpu
    (cycles, { cpu with cycles_synced := 0 })

/-- A bus-state instantiation for the CPU-level claims: a flat byte store
plus the interrupt registers, wired like `SystemBus` wires the trait
(`check_interrupts` delegates to `InterruptRegisters::check`, bus.rs
144-146) and like the `FakeBus` of the crate's own CPU tests (plain memory,
inert `step_peripherals`). -/
structure SimpleBus where
  mem : Nat → Nat
  int_reg : InterruptRegisters

/-- The `Bus` trait operations of `SimpleBus`. -/
def simpleBusOps : BusOps SimpleBus :=
  { read_byte := fun b a => b.mem a
    write_byte := fun b a v => { b with mem := fun j => if j = a then v else b.mem j }
    check_int := fun b r =>
      let p := b.int_reg.check r
      (p.1, { b with int_reg := p.2 })
    step_peripherals := fun b _ => b }

/-- Claim C1.  The claim is false on the code: a bus access in
0xE000-0xFDFF is routed to `RAM::read_byte`/`write_byte`, whose echo arm
indexes `wram_bank0` (4 KiB) at `address - 0x2000 - 0xC000`; for
`address = 0xF000` that index is 0x1000, one past the end, so both the read
and the write panic instead of mirroring 0xD000.  The sub-range
0xE000-0xEFFF does mirror 0xC000-0xCFFF (third conjunct), so decode is not
total over 0xE000-0xFDFF as claimed. -/
theorem claim_C1_echo_panics :
    (SystemBus.fresh Mode.DMG).read_byte 0xF000 = none
    ∧ ((SystemBus.fresh Mode.DMG).write_byte 0xF000 0x12).isNone = true
    ∧ (SystemBus.fresh Mode.DMG).read_byte 0xE000 =
        arrGet (SystemBus.fresh Mode.DMG).ram.wram_bank0 0x1000 (0xE000 - 0x2000 - 0xC000) := by
  refine ⟨by decide, ?_, by decide⟩
  rfl

/-- Claim C2.  The claim is false on the code: `SystemBus::write_byte` has
no arm matching 0xFF70, so the write lands in the `dummy_mem` scratch vector
and never reaches `RAM` — `wram_bank` stays 1 after writing 2 (the claim
requires bank 2), and reading 0xFF70 back after writing 0 yields the raw 0
(the claim requires `max(0 & 7, 1) = 1`). -/
theorem claim_C2_ff70_not_routed :
    ((SystemBus.fresh Mode.CGB).write_byte 0xFF70 0).bind
        (fun b => (b.read_byte 0xFF70).map (fun v => (v, b.ram.wram_bank))) = some (0, 1)
    ∧ ((SystemBus.fresh Mode.CGB).write_byte 0xFF70 2).map (fun b => b.ram.wram_bank) = some 1
    ∧ Nat.max (0 &&& 7) 1 = 1 ∧ Nat.max (2 &&& 7) 1 = 2
    ∧ (RAM.new Mode.CGB).write_byte 0xFF70 2 =
        some { RAM.new Mode.CGB with wram_bank := 2 } := by
  refine ⟨by decide, ?_, by decide, by decide, ?_⟩ <;> rfl

/-- Claim C3, counterexample: after a bus write of 0 to the unmapped
address 0xFF7F, a bus read of 0xFF7F returns 0, not 0xFF — unmapped writes
are stored in `dummy_mem`, not dropped. -/
theorem claim_C3_counterexample :
    ((SystemBus.fresh Mode.DMG).write_byte 0xFF7F 0).bind
        (fun b => b.read_byte 0xFF7F) ≠ some 0xFF := by
  decide

/-- Claim C3, amended: for every address the bus decodes to no peripheral,
a write is stored in the `dummy_mem` scratch vector (every other bus
component is left unchanged), a subsequent read of that address returns the
stored value, and on a bus whose scratch vector still holds its initial
0xFF fill, a read returns 0xFF. -/
theorem claim_C3_unmapped (b : SystemBus) (address value : Nat)
    (hd : busDecode address = BusTarget.dummy) (ha : address ≤ 0xFFFF) :
    b.write_byte address value =
      some { b with dummy_mem := fun j => if j = address then value else b.dummy_mem j }
    ∧ (b.write_byte address value).bind (fun b2 => b2.read_byte address) = some value
    ∧ (b.dummy_mem = (fun _ => 0xFF) → b.read_byte address = some 0xFF) := by
  have hlt : address < 0xA0000 := by omega
  have hw : b.write_byte address value =
      some { b with dummy_mem := fun j => if j = address then value else b.dummy_mem j } := by
    unfold SystemBus.write_byte
    rw [hd]
    simp [arrSet, hlt]
  refine ⟨hw, ?_, ?_⟩
  · rw [hw]
    unfold SystemBus.read_byte
    rw [hd]
    simp [arrGet, hlt]
  · intro h
    unfold SystemBus.read_byte
    rw [hd]
    simp [arrGet, hlt, h]

/-- Witness for claim C3 at a concrete input: address 0xFF7F, value 0, on a
fresh DMG bus. -/
theorem claim_C3_unmapped_witness :
    busDecode 0xFF7F = BusTarget.dummy ∧ (0xFF7F : Nat) ≤ 0xFFFF ∧
    ((SystemBus.fresh Mode.DMG).write_byte 0xFF7F 0).bind
        (fun b2 => b2.read_byte 0xFF7F) = some 0 :=
  ⟨by decide, by decide,
    (claim_C3_unmapped (SystemBus.fresh Mode.DMG) 0xFF7F 0 (by decide) (by decide)).2.1⟩

/-- Claim C9: the flags register stores only the four flag booleans, packed
into bits 7-4 on every read-out, so F — read alone or as the low byte of
AF, including after any 16-bit AF write — always has a zero low nibble. -/
theorem claim_C9_f_low_nibble_zero (fl : FlagsRegister) (r : Registers) (v : Nat) :
    fl.toByte % 16 = 0
    ∧ r.get_af % 16 = 0
    ∧ ((r.set_af v).f).toByte % 16 = 0 := by
  have key : ∀ g : FlagsRegister, g.toByte % 16 = 0 := by
    intro g
    obtain ⟨z, s, hc, c⟩ := g
    cases z <;> cases s <;> cases hc <;> cases c <;> decide
  refine ⟨key fl, ?_, key ((r.set_af v).f)⟩
  have h16 : (16 : Nat) = 2 ^ 4 := by norm_num
  show ((r.a <<< 8) ||| r.f.toByte) % 16 = 0
  apply Nat.eq_of_testBit_eq
  intro i
  rw [h16, Nat.testBit_mod_two_pow, Nat.zero_testBit, Nat.testBit_lor, Nat.testBit_shiftLeft]
  by_cases hi : i < 4
  · have hx : ¬ 8 ≤ i := by omega
    have hyb : (r.f.toByte).testBit i = false := by
      have ht := Nat.testBit_mod_two_pow r.f.toByte 4 i
      rw [← h16, key r.f, Nat.zero_testBit] at ht
      simp [hi] at ht
      exact ht
    simp [hx, hyb, hi]
  · simp [hi]

/-- Claim C5: with the timer enabled, `TIMA = 0xFF`, no reload already
pending, and the step's counter increment producing a falling edge of the
selected bit, TIMA wraps to 0 with the reload armed and the Timer IF bit
unchanged (it does not rise on the wrap step); on the next `Timer::step`
call, TIMA is reloaded from TMA and the Timer interrupt is requested.  The
second step cannot tick again: its `prev` bit is the post-wrap counter bit,
which the falling edge just cleared. -/
theorem claim_C5_tima_overflow_delay (t : Timer) (i : InterruptRegisters) (c1 c2 : Nat)
    (d1 d2 : Bool)
    (hen : t.tac.enabled = true)
    (htima : t.tima = 0xFF)
    (hdel : t.delayed_timer = false)
    (hprev : (t.system_counter.prev >>> t.tac.falling_edge_bit) &&& 1 = 1)
    (hcurr : (((t.system_counter.counter + c1) % 65536) >>> t.tac.falling_edge_bit) &&& 1 = 0) :
    (t.step i c1 d1).1.tima = 0
    ∧ (t.step i c1 d1).1.delayed_timer = true
    ∧ (t.step i c1 d1).2.flags 2 = i.flags 2
    ∧ (((t.step i c1 d1).1.step (t.step i c1 d1).2 c2 d2).1).tima = t.tma
    ∧ (((t.step i c1 d1).1.step (t.step i c1 d1).2 c2 d2).1).delayed_timer = false
    ∧ (((t.step i c1 d1).1.step (t.step i c1 d1).2 c2 d2).2).flags 2 = true := by
  have hstep1 : t.step i c1 d1 =
      ({ t with
          system_counter :=
            { counter := (t.system_counter.counter + c1) % 65536
              prev := (t.system_counter.counter + c1) % 65536
              ticked := true
              div_apu_event :=
                ({ t.system_counter with
                    counter := (t.system_counter.counter + c1) % 65536,
                    ticked := true } : SystemCounter).div_apu_ticked d1 }
          tima := 0
          delayed_timer := true }, i) := by
    simp [Timer.step, SystemCounter.inc, SystemCounter.timer_ticked, hen, hdel, htima,
      hprev, hcurr]
  rw [hstep1]
  refine ⟨rfl, rfl, rfl, ?_, ?_, ?_⟩ <;>
    simp [Timer.step, SystemCounter.inc, SystemCounter.timer_ticked, hen, hcurr,
      InterruptRegisters.request_timer]

/-- A concrete timer about to overflow: TAC = 0b101 (enabled, input clock
with falling-edge bit 3), counter at 12 so that adding 4 cycles drops bit 3,
TIMA = 0xFF, TMA = 0xAB. -/
def timerAtOverflow : Timer :=
  { system_counter := { counter := 12, prev := 12, ticked := false, div_apu_event := false }
    delayed_timer := false
    tima := 0xFF
    tma := 0xAB
    tac := TimerControl.fromByte 5 }

/-- Witness for claim C5: the concrete overflow scenario, stepped twice by
4 cycles. -/
theorem claim_C5_tima_overflow_delay_witness :
    timerAtOverflow.tac.enabled = true
    ∧ timerAtOverflow.tima = 0xFF
    ∧ timerAtOverflow.delayed_timer = false
    ∧ (timerAtOverflow.system_counter.prev >>> timerAtOverflow.tac.falling_edge_bit) &&& 1 = 1
    ∧ (((timerAtOverflow.system_counter.counter + 4) % 65536) >>>
        timerAtOverflow.tac.falling_edge_bit) &&& 1 = 0
    ∧ (((timerAtOverflow.step InterruptRegisters.new 4 false).1.step
          (timerAtOverflow.step InterruptRegisters.new 4 false).2 4 false).1).tima = 0xAB :=
  ⟨by decide, by decide, by decide, by decide, by decide,
    (claim_C5_tima_overflow_delay timerAtOverflow InterruptRegisters.new 4 4 false false
      (by decide) (by decide) (by decide) (by decide) (by decide)).2.2.2.1⟩

/-- Claim C10: a fresh `Timer` has `delayed_timer = true`, so after writing
any TAC value with bit 2 (enable) set, the very next `Timer::step` performs
the delayed reload: it requests the Timer interrupt and leaves TIMA equal to
TMA (both 0 on a fresh timer).  No spurious increment can intervene: the
fresh counter's `prev` is 0, so no falling edge is possible on that step. -/
theorem claim_C10_initial_delayed_reload (v c : Nat) (d : Bool) (i : InterruptRegisters)
    (hv : (v >>> 2) &&& 1 ≠ 0) :
    (Timer.new.write_byte 0xFF07 v).map
        (fun t => ((t.step i c d).1.tima, (t.step i c d).1.tma, (t.step i c d).2.flags 2)) =
      some (0, 0, true) := by
  have hv2 : v >>> 2 % 2 = 1 := by
    rw [Nat.and_one_is_mod] at hv
    omega
  simp [Timer.write_byte, Timer.step, Timer.new, SystemCounter.new, SystemCounter.inc,
    SystemCounter.timer_ticked, TimerControl.fromByte, hv2,
    InterruptRegisters.request_timer]

/-- Witness for claim C10: TAC value 4, 4 cycles, single speed. -/
theorem claim_C10_initial_delayed_reload_witness :
    ((4 : Nat) >>> 2) &&& 1 ≠ 0
    ∧ (Timer.new.write_byte 0xFF07 4).map
        (fun t =>
          ((t.step InterruptRegisters.new 4 false).1.tima,
            (t.step InterruptRegisters.new 4 false).1.tma,
            (t.step InterruptRegisters.new 4 false).2.flags 2)) = some (0, 0, true) :=
  ⟨by decide, claim_C10_initial_delayed_reload 4 4 false InterruptRegisters.new (by decide)⟩

/-- Claim C6: `PPU::handle_stat_int` requests a STAT interrupt exactly on a
0-to-1 transition of the internal line (first conjunct characterises the
request as an `if` on the rising edge), records the new line level (second
conjunct), never requests while the line was already high (third conjunct),
and consequently makes no second request on any later step whose pre-state
carries the high line over — `stat_int_line` is written only by
`update_stat_line`, so consecutive `PPU::step`s hand it over unchanged
(fourth conjunct). -/
theorem claim_C6_stat_rising_edge (p : PPUStatSlice) (i : InterruptRegisters) :
    (p.handle_stat_int i).2 =
      (if p.stat_int_line = false ∧ statLineValue p = true then i.request_stat_lcd else i)
    ∧ (p.handle_stat_int i).1.stat_int_line = statLineValue p
    ∧ (p.stat_int_line = true → (p.handle_stat_int i).2 = i)
    ∧ (statLineValue p = true →
        ∀ (q : PPUStatSlice) (j : InterruptRegisters),
          q.stat_int_line = (p.handle_stat_int i).1.stat_int_line →
          (q.handle_stat_int j).2 = j) := by
  have hupd : ∀ (s : PPUStatSlice), statLineValue s.update_stat_line = statLineValue s := by
    intro s
    rfl
  cases hline : p.stat_int_line <;> cases hval : statLineValue p <;>
    simp [PPUStatSlice.handle_stat_int, PPUStatSlice.update_stat_line, hline, hval] <;>
    intro q j hq <;>
    simp [PPUStatSlice.handle_stat_int, PPUStatSlice.update_stat_line, hq]

/-- Witness for claim C6: a state entering HBlank with the HBlank selector
on and the line previously low. -/
def ppuStatSample : PPUStatSlice :=
  { mode := PPUMode.HBlank
    ly := 10
    lyc := 20
    hblank_int_select := true
    vblank_int_select := false
    oam_int_select := false
    lyc_int_select := false
    stat_int_line := false }

/-- Witness for claim C6 at a concrete input: the first step requests the
STAT interrupt, and a second step with the line still high does not request
again (demonstrated through the theorem's fourth conjunct applied to the
post-state). -/
theorem claim_C6_stat_rising_edge_witness :
    (ppuStatSample.handle_stat_int InterruptRegisters.new).2 =
      (if ppuStatSample.stat_int_line = false ∧ statLineValue ppuStatSample = true then
        InterruptRegisters.new.request_stat_lcd
      else InterruptRegisters.new) :=
  (claim_C6_stat_rising_edge ppuStatSample InterruptRegisters.new).1

/-- Claim C7: writing NR52 with bit 7 clear powers the APU off; the result
is exactly a freshly constructed APU (same stereo backend) except that the
16 wave-RAM bytes and the four channels' length-timer counters are carried
over.  In particular every other field — channel enables, envelopes, sweep,
duty/period state, panning, master volume/VIN bits, frame-sequencer step,
DIV-APU edge memory, sample accumulator, sample buffer — is reset to the
value `APU::new` gives it. -/
theorem claim_C7_power_off_state {S : Type} (a : APU S) (v : Nat)
    (hv : v &&& 128 ≠ 128) :
    a.write_master_control v =
      { APU.new a.stereo with
          ch1 := { SquareChannel.new true with
                     length_timer := { LengthTimer.new 64 with
                                         timer := a.ch1.length_timer.timer } }
          ch2 := { SquareChannel.new false with
                     length_timer := { LengthTimer.new 64 with
                                         timer := a.ch2.length_timer.timer } }
          ch3 := { WaveChannel.new with
                     wave_ram := { WaveRam.new with ram := a.ch3.wave_ram.ram }
                     length_timer := { LengthTimer.new 256 with
                                         timer := a.ch3.length_timer.timer } }
          ch4 := { NoiseChannel.new with
                     length_timer := { LengthTimer.new 64 with
                                         timer := a.ch4.length_timer.timer } } } := by
  have hb : (v &&& 128 == 128) = false := by
    simpa using hv
  show (if !(v &&& 128 == 128) then a.power_off else a.power_on) = _
  rw [hb]
  rfl

/-- A concrete APU state with audible activity: master on, some mixer
volume, a nonzero frame-sequencer step, dirty wave RAM and nonzero length
counters. -/
def apuSample : APU Unit :=
  { APU.new () with
      is_on := true
      left_volume := 3
      right_volume := 5
      current_step := 4
      samples_cycle_acc := 17
      ch1 := { SquareChannel.new true with
                 is_on := true
                 length_timer := { LengthTimer.new 64 with timer := 7 } }
      ch2 := { SquareChannel.new false with
                 length_timer := { LengthTimer.new 64 with timer := 9 } }
      ch3 := { WaveChannel.new with
                 wave_ram := { WaveRam.new with ram := fun i => i + 1 }
                 length_timer := { LengthTimer.new 256 with timer := 123 } }
      ch4 := { NoiseChannel.new with
                 length_timer := { LengthTimer.new 64 with timer := 11 } } }

/-- Witness for claim C7: writing NR52 = 0x00 on the concrete APU state. -/
theorem claim_C7_power_off_state_witness :
    (0 : Nat) &&& 128 ≠ 128
    ∧ apuSample.write_master_control 0 =
      { APU.new apuSample.stereo with
          ch1 := { SquareChannel.new true with
                     length_timer := { LengthTimer.new 64 with
                                         timer := apuSample.ch1.length_timer.timer } }
          ch2 := { SquareChannel.new false with
                     length_timer := { LengthTimer.new 64 with
                                         timer := apuSample.ch2.length_timer.timer } }
          ch3 := { WaveChannel.new with
                     wave_ram := { WaveRam.new with ram := apuSample.ch3.wave_ram.ram }
                     length_timer := { LengthTimer.new 256 with
                                         timer := apuSample.ch3.length_timer.timer } }
          ch4 := { NoiseChannel.new with
                     length_timer := { LengthTimer.new 64 with
                                         timer := apuSample.ch4.length_timer.timer } } } :=
  ⟨by decide, claim_C7_power_off_state apuSample 0 (by decide)⟩

/-- The loop of `InterruptRegisters::check` selects the lowest pending
enabled bit: starting anywhere at or below the least index `b` with both
enable and flag set, it returns `b`'s vector and assigns `!reset_flag` to
`b`'s flag. -/
theorem checkAux_lowest (r : InterruptRegisters) (rf : Bool) (b : Nat)
    (hb : b < 5) (hen : r.enables b = true) (hfl : r.flags b = true)
    (hlow : ∀ j, j < b → (r.enables j && r.flags j) = false) :
    ∀ i, i ≤ b → r.checkAux rf i =
      (some (isrAddresses.getD b 0),
        { r with flags := fun j => if j = b then !rf else r.flags j }) := by
  have main : ∀ d i, i ≤ b → b - i = d → r.checkAux rf i =
      (some (isrAddresses.getD b 0),
        { r with flags := fun j => if j = b then !rf else r.flags j }) := by
    intro d
    induction d with
    | zero =>
        intro i hi hd
        have hib : i = b := by omega
        subst hib
        rw [InterruptRegisters.checkAux]
        simp [hb, hen, hfl]
    | succ n ih =>
        intro i hi hd
        have hib : i < b := by omega
        have hi5 : i < 5 := by omega
        rw [InterruptRegisters.checkAux]
        simp [hi5, hlow i hib]
        simpa using ih (i + 1) (by omega) (by omega)
  intro i hi
  exact main (b - i) i hi rfl

/-- Claim C4, both scenarios of `CPU::check_interrupts` over the
`SimpleBus` instantiation (whose `check_interrupts` delegates to
`InterruptRegisters::check` exactly as `SystemBus` does).  Service case
(`c1`, IME on, `b` the lowest bit pending in both IE and IF): 20 cycles,
IME cleared, the `b` IF bit cleared (others kept), PC pushed at the
decremented SP, PC set to `b`'s vector.  Halt-break case (`c2`, IME off,
halted, `b2` the lowest pending bit): 4 cycles, halt cleared, no flag
cleared, no vector taken, memory and SP untouched. -/
theorem claim_C4_interrupt_service (c1 c2 : CPUState SimpleBus) (b b2 : Nat)
    (h1ime : c1.ime = true)
    (hb : b < 5)
    (hen : c1.bus.int_reg.enables b = true)
    (hfl : c1.bus.int_reg.flags b = true)
    (hlow : ∀ j, j < b → (c1.bus.int_reg.enables j && c1.bus.int_reg.flags j) = false)
    (h2ime : c2.ime = false)
    (h2halt : c2.is_halted = true)
    (hb2 : b2 < 5)
    (hen2 : c2.bus.int_reg.enables b2 = true)
    (hfl2 : c2.bus.int_reg.flags b2 = true)
    (hlow2 : ∀ j, j < b2 → (c2.bus.int_reg.enables j && c2.bus.int_reg.flags j) = false) :
    (cpuCheckInterrupts simpleBusOps c1).1 = 20
    ∧ (cpuCheckInterrupts simpleBusOps c1).2.ime = false
    ∧ (cpuCheckInterrupts simpleBusOps c1).2.is_halted = false
    ∧ (cpuCheckInterrupts simpleBusOps c1).2.pc = isrAddresses.getD b 0
    ∧ (cpuCheckInterrupts simpleBusOps c1).2.sp = (c1.sp + 65534) % 65536
    ∧ (∀ j, (cpuCheckInterrupts simpleBusOps c1).2.bus.int_reg.flags j =
        if j = b then false else c1.bus.int_reg.flags j)
    ∧ (cpuCheckInterrupts simpleBusOps c1).2.bus.int_reg.enables = c1.bus.int_reg.enables
    ∧ (cpuCheckInterrupts simpleBusOps c1).2.bus.mem = (fun j =>
        if j = ((c1.sp + 65534) % 65536 + 1) % 65536 then (c1.pc >>> 8) &&& 0xFF
        else if j = (c1.sp + 65534) % 65536 then c1.pc &&& 0xFF
        else c1.bus.mem j)
    ∧ (cpuCheckInterrupts simpleBusOps c2).1 = 4
    ∧ (cpuCheckInterrupts simpleBusOps c2).2.is_halted = false
    ∧ (cpuCheckInterrupts simpleBusOps c2).2.ime = false
    ∧ (cpuCheckInterrupts simpleBusOps c2).2.pc = c2.pc
    ∧ (cpuCheckInterrupts simpleBusOps c2).2.sp = c2.sp
    ∧ (cpuCheckInterrupts simpleBusOps c2).2.bus.mem = c2.bus.mem
    ∧ (∀ j, (cpuCheckInterrupts simpleBusOps c2).2.bus.int_reg.flags j =
        c2.bus.int_reg.flags j) := by
  have hcheck1 : c1.bus.int_reg.check true =
      (some (isrAddresses.getD b 0),
        { c1.bus.int_reg with
            flags := fun j => if j = b then !true else c1.bus.int_reg.flags j }) :=
    checkAux_lowest c1.bus.int_reg true b hb hen hfl hlow 0 (Nat.zero_le b)
  have hcheck2 : c2.bus.int_reg.check false =
      (some (isrAddresses.getD b2 0),
        { c2.bus.int_reg with
            flags := fun j => if j = b2 then !false else c2.bus.int_reg.flags j }) :=
    checkAux_lowest c2.bus.int_reg false b2 hb2 hen2 hfl2 hlow2 0 (Nat.zero_le b2)
  have hflags2 : ∀ j,
      (cpuCheckInterrupts simpleBusOps c2).2.bus.int_reg.flags j = c2.bus.int_reg.flags j := by
    intro j
    by_cases hj : j = b2
    · subst hj
      simp [cpuCheckInterrupts, simpleBusOps, h2ime, h2halt, hcheck2, hfl2]
    · simp [cpuCheckInterrupts, simpleBusOps, h2ime, h2halt, hcheck2, hj]
  have hflags1 : ∀ j, (cpuCheckInterrupts simpleBusOps c1).2.bus.int_reg.flags j =
      if j = b then false else c1.bus.int_reg.flags j := by
    intro j
    simp [cpuCheckInterrupts, simpleBusOps, h1ime, hcheck1, cpuPush, cpuWriteTwoBytes,
      cpuWriteByte]
  refine ⟨?_, ?_, ?_, ?_, ?_, hflags1, ?_, ?_, ?_, ?_, ?_, ?_, ?_, ?_, hflags2⟩ <;>
    simp [cpuCheckInterrupts, simpleBusOps, h1ime, h2ime, h2halt, hcheck1, hcheck2,
      cpuPush, cpuWriteTwoBytes, cpuWriteByte]

/-- A CPU about to service the Timer interrupt: IME on, IE and IF bit 2 set
(and IE bit 4, whose number is higher, so bit 2 is picked). -/
def cpuServiceSample : CPUState SimpleBus :=
  { is_halted := false
    is_stopped := false
    ime := true
    ime_delayed := false
    registers :=
      { a := 0, b := 0, c := 0, d := 0, e := 0
        f := { zero := false, subtract := false, half_carry := false, carry := false }
        h := 0, l := 0 }
    pc := 0x1234
    sp := 0xFFFE
    bus :=
      { mem := fun _ => 0
        int_reg :=
          { enables := fun j => decide (j = 2) || decide (j = 4)
            flags := fun j => decide (j = 2) || decide (j = 4) } }
    cycles_synced := 0 }

/-- A halted CPU with IME off and the STAT interrupt (bit 1) pending. -/
def cpuHaltSample : CPUState SimpleBus :=
  { cpuServiceSample with
      ime := false
      is_halted := true
      bus :=
        { mem := fun _ => 0
          int_reg := { enables := fun j => decide (j = 1), flags := fun j => decide (j = 1) } } }

/-- Witness for claim C4 at the two concrete states: servicing reports 20
cycles and jumps to the Timer vector 0x50; the halt break reports 4 cycles
and only clears the halt. -/
theorem claim_C4_interrupt_service_witness :
    cpuServiceSample.ime = true
    ∧ cpuServiceSample.bus.int_reg.enables 2 = true
    ∧ cpuServiceSample.bus.int_reg.flags 2 = true
    ∧ cpuHaltSample.ime = false
    ∧ cpuHaltSample.is_halted = true
    ∧ (cpuCheckInterrupts simpleBusOps cpuServiceSample).1 = 20
    ∧ (cpuCheckInterrupts simpleBusOps cpuServiceSample).2.pc = isrAddresses.getD 2 0
    ∧ (cpuCheckInterrupts simpleBusOps cpuHaltSample).1 = 4
    ∧ (cpuCheckInterrupts simpleBusOps cpuHaltSample).2.is_halted = false := by
  have H := claim_C4_interrupt_service cpuServiceSample cpuHaltSample 2 1
    rfl (by decide) rfl rfl
    (by
      intro j hj
      interval_cases j <;> rfl)
    rfl rfl (by decide) rfl rfl
    (by
      intro j hj
      interval_cases j
      rfl)
  exact ⟨rfl, rfl, rfl, rfl, rfl, H.1, H.2.2.2.1, H.2.2.2.2.2.2.2.2.1,
    H.2.2.2.2.2.2.2.2.2.1⟩

/-- Claim C8: an opcode from the illegal list reaches the `_ => None` arm of
`CPU::execute`, and `CPU::step` turns that into a 1-byte, 4-cycle NOP: the
returned state differs from the pre-state only in `PC = PC + 1 (mod 2^16)`
— registers, flags, SP, the memory and the interrupt registers are all
unchanged — and 4 cycles are reported.  Quantified over arbitrary semantics
`exec` / `execPrefixed` for the matched opcodes, which are never consulted. -/
theorem claim_C8_illegal_opcode_nop (op : Nat) (cpu : CPUState SimpleBus)
    (exec execPrefixed : CPUState SimpleBus → Nat → CPUState SimpleBus × Option (Nat × Nat))
    (hop : op ∈ illegalOpcodes)
    (hmem : cpu.bus.mem cpu.pc = op)
    (hhalt : cpu.is_halted = false)
    (hime : cpu.ime = false)
    (himed : cpu.ime_delayed = false)
    (hsync : cpu.cycles_synced = 0) :
    (cpuStep simpleBusOps exec execPrefixed cpu).1 = 4
    ∧ (cpuStep simpleBusOps exec execPrefixed cpu).2 =
        { cpu with pc := (cpu.pc + 1) % 65536 } := by
  have hside : ∀ x ∈ illegalOpcodes, (x ∈ executeMatchedOpcodes) = False ∧ (x = 0xCB) = False := by
    decide
  obtain ⟨hnotm, hnotcb⟩ := hside op hop
  constructor <;>
    simp [cpuStep, cpuReadByte, cpuExecute, cpuCheckInterrupts, simpleBusOps, hmem,
      hhalt, hime, himed, hsync, hnotm, hnotcb]

/-- A CPU whose whole memory is filled with the illegal opcode 0xD3. -/
def cpuIllegalSample : CPUState SimpleBus :=
  { cpuServiceSample with
      ime := false
      pc := 0x100
      bus := { mem := fun _ => 0xD3, int_reg := InterruptRegisters.new } }

/-- Witness for claim C8: executing opcode 0xD3 at PC = 0x100 with inert
stand-ins for the matched-opcode semantics. -/
theorem claim_C8_illegal_opcode_nop_witness :
    (0xD3 : Nat) ∈ illegalOpcodes
    ∧ cpuIllegalSample.bus.mem cpuIllegalSample.pc = 0xD3
    ∧ (cpuStep simpleBusOps (fun c _ => (c, none)) (fun c _ => (c, none))
        cpuIllegalSample).1 = 4
    ∧ (cpuStep simpleBusOps (fun c _ => (c, none)) (fun c _ => (c, none))
        cpuIllegalSample).2 =
        { cpuIllegalSample with pc := (cpuIllegalSample.pc + 1) % 65536 } := by
  have H := claim_C8_illegal_opcode_nop 0xD3 cpuIllegalSample
    (fun c _ => (c, none)) (fun c _ => (c, none))
    (by decide) rfl rfl rfl rfl rfl
  exact ⟨by decide, rfl, H.1, H.2⟩

end Gamuboy
